import Mathlib

/-
Verification development for the AI-Employee workflow lifecycle engine.

The Python sources manipulate a filesystem-backed task queue: markdown files
with a key/value front-matter block, stored in state directories
(Needs_Action, Pending_Approval, Done, Error_Queue), plus a line-delimited
per-day audit log.  We embed this shallowly:

* Each state directory is an association list from filename to file content.
* A workflow item file's front matter is embedded as a record whose fields
  are exactly the keys the source reads (via line scans such as
  `line.startswith("retry_count:")`) and writes (via `str.replace` on the
  front-matter lines).  For the files this module itself generates, every
  replaced pattern (for example the line holding the status value, or the
  line holding the printed retry counter) occurs exactly once and on its own
  line, so the source's whole-text `replace` calls act as field updates on
  this record; free-text additions appended after the body are kept in a
  `tail` list of appended blocks.
* The audit log is a list of entries; the source's append-mode single-line
  write is list append.
* The wall clock is passed in as an explicit `ts` string, and network
  side effects (Odoo JSON-RPC, Graph API, Tweepy) are an explicit
  environment function returning `Except`, with an attempt trace recorded
  in the state.
-/

/-- Entry is one line of the per-day audit log `Logs/<date>.json`:
timestamp, action kind, acting component, free-text detail, outcome. -/
structure Entry where
  timestamp : String
  action_type : String
  actor : String
  details : String
  result : String
deriving Repr, DecidableEq

/-- OpResult embeds the JSON dictionaries the tool implementations return;
keys absent from a given dictionary are `none`. -/
structure OpResult where
  success : Bool
  error : Option String := none
  file : Option String := none
  action_type : Option String := none
  retry_count : Option Nat := none
  max_retries : Option Nat := none
  moved_to : Option String := none
  status : Option String := none
  reason : Option String := none
  approval_file : Option String := none
  message : Option String := none
  invoice : Option String := none
  amount : Option ℚ := none
  char_count : Option Nat := none
deriving Repr, DecidableEq

/-- lookupAL finds the content stored under a filename in a directory
(association list); `none` models `Path.exists()` being false. -/
def lookupAL {α : Type} (k : String) : List (String × α) → Option α
  | [] => none
  | (k₁, v) :: t => if k₁ = k then some v else lookupAL k t

/-- setAL models `Path.write_text`: it overwrites the file if present,
otherwise creates it. -/
def setAL {α : Type} (k : String) (v : α) (l : List (String × α)) :
    List (String × α) :=
  (l.filter (fun p => p.1 ≠ k)) ++ [(k, v)]

/-- eraseAL removes a filename from a directory (the source half of
`Path.rename`). -/
def eraseAL {α : Type} (k : String) (l : List (String × α)) :
    List (String × α) :=
  l.filter (fun p => p.1 ≠ k)

/-- memAL is `Path.exists()` for a directory listing. -/
def memAL {α : Type} (k : String) (l : List (String × α)) : Bool :=
  (lookupAL k l).isSome

/-- upper embeds Python `str.upper()` on the ASCII identifiers the code
uppercases; it maps `Char.toUpper` over the characters (the library
`String.toUpper` recurses on byte positions with a well-founded measure
and therefore does not reduce inside the kernel). -/
def upper (s : String) : String := String.mk (s.data.map Char.toUpper)

theorem lookupAL_setAL_self {α : Type} (k : String) (v : α)
    (l : List (String × α)) : lookupAL k (setAL k v l) = some v := by
  induction l with
  | nil => simp [setAL, lookupAL]
  | cons p t ih =>
      by_cases h : p.1 = k
      · simpa [setAL, h] using ih
      · simpa [setAL, lookupAL, h] using ih

theorem lookupAL_setAL_ne {α : Type} (k k₁ : String) (v : α)
    (l : List (String × α)) (h : k₁ ≠ k) :
    lookupAL k₁ (setAL k v l) = lookupAL k₁ l := by
  induction l with
  | nil => simp [setAL, lookupAL, Ne.symm h]
  | cons p t ih =>
      by_cases hp : p.1 = k
      · have hp₁ : p.1 ≠ k₁ := by
          intro hcon; exact h (by rw [← hcon, hp])
        have hdrop : setAL k v (p :: t) = setAL k v t := by
          simp [setAL, List.filter_cons, hp]
        rw [hdrop, ih]
        simp [lookupAL, hp₁]
      · have hkeep : setAL k v (p :: t) = p :: setAL k v t := by
          simp [setAL, List.filter_cons, hp]
        by_cases hk : p.1 = k₁
        · rw [hkeep]; simp [lookupAL, hk]
        · rw [hkeep]; simp [lookupAL, hk, ih]

theorem lookupAL_eraseAL_self {α : Type} (k : String)
    (l : List (String × α)) : lookupAL k (eraseAL k l) = none := by
  induction l with
  | nil => simp [eraseAL, lookupAL]
  | cons p t ih =>
      by_cases hp : p.1 = k
      · simpa [eraseAL, hp] using ih
      · simpa [eraseAL, lookupAL, hp] using ih

theorem lookupAL_eraseAL_ne {α : Type} (k k₁ : String)
    (l : List (String × α)) (h : k₁ ≠ k) :
    lookupAL k₁ (eraseAL k l) = lookupAL k₁ l := by
  induction l with
  | nil => simp [eraseAL, lookupAL]
  | cons p t ih =>
      by_cases hp : p.1 = k
      · have hp₁ : p.1 ≠ k₁ := by
          intro hcon; exact h (by rw [← hcon, hp])
        have hdrop : eraseAL k (p :: t) = eraseAL k t := by
          simp [eraseAL, List.filter_cons, hp]
        rw [hdrop, ih]
        simp [lookupAL, hp₁]
      · have hkeep : eraseAL k (p :: t) = p :: eraseAL k t := by
          simp [eraseAL, List.filter_cons, hp]
        by_cases hk : p.1 = k₁
        · rw [hkeep]; simp [lookupAL, hk]
        · rw [hkeep]; simp [lookupAL, hk, ih]

namespace ErrorRecovery

/-- MAX_RETRIES as set in `error_recovery/server.py`. -/
def MAX_RETRIES : Nat := 3

/-- ItemText embeds the markdown text of an Error_Queue item file.  The
front-matter fields are those `queue_for_retry` writes and the other tools
scan line-by-line; `historyPlaceholder` records whether the body still
holds the literal retry-history placeholder text that the first retry's
`replace` consumes; `history` is what replaced it; `tail` is the list of
blocks later appended to the end of the text. -/
structure ItemText where
  action_type : String
  created : String
  retry_count : Nat
  max_retries : Nat
  status : String
  description : String
  original_error : String
  payload : String
  historyPlaceholder : Bool
  history : List String
  tail : List String
deriving Repr, DecidableEq

/-- ErrState is the slice of the vault the error-recovery server touches:
the Error_Queue, Needs_Action and Done directories plus the audit log. -/
structure ErrState where
  errorQueue : List (String × ItemText)
  needsAction : List (String × ItemText)
  done : List (String × ItemText)
  log : List Entry
deriving Repr, DecidableEq

/-- appendLog embeds `_log` in `error_recovery/server.py`: one JSON line
appended to the per-day log file. -/
def appendLog (action_type details result ts : String) (st : ErrState) :
    ErrState :=
  { st with log := st.log ++
      [{ timestamp := ts, action_type := action_type,
         actor := "ErrorRecoveryServer", details := details,
         result := result }] }

/-- queue_for_retry from `error_recovery/server.py`: writes a fresh item
file with status queued and retry_count 0 into Error_Queue and logs it. -/
def queue_for_retry (action_type description payload original_error ts : String)
    (st : ErrState) : OpResult × ErrState :=
  let fname := "ERROR_" ++ upper action_type ++ "_" ++ ts ++ ".md"
  let item : ItemText :=
    { action_type := action_type, created := ts, retry_count := 0,
      max_retries := MAX_RETRIES, status := "queued",
      description := description, original_error := original_error,
      payload := payload, historyPlaceholder := true, history := [],
      tail := [] }
  let st₁ := { st with errorQueue := setAL fname item st.errorQueue }
  let st₂ := appendLog "error_queued"
      ("Queued " ++ action_type ++ ": " ++ description) "success" ts st₁
  ({ success := true, file := some fname, action_type := some action_type },
   st₂)

/-- ListedItem is one element of `list_error_queue`'s `items` array. -/
structure ListedItem where
  file : String
  action_type : String
  status : String
  retry_count : Nat
  created : String
deriving Repr, DecidableEq

/-- list_error_queue from `error_recovery/server.py`: parses each item's
front matter fields; read-only apart from the audit log entry. -/
def list_error_queue (ts : String) (st : ErrState) :
    (Nat × List ListedItem) × ErrState :=
  let items := st.errorQueue.map (fun p =>
    { file := p.1, action_type := p.2.action_type, status := p.2.status,
      retry_count := p.2.retry_count, created := p.2.created : ListedItem })
  let st₁ := appendLog "list_error_queue"
      ("Listed " ++ toString items.length ++ " error queue items")
      "success" ts st
  ((items.length, items), st₁)

/-- unrecoverableText is the file rewrite `mark_unrecoverable` performs:
the replace loop over the queued and retrying status patterns, followed
by the appended reason block. -/
def unrecoverableText (text : ItemText) (reason ts : String) : ItemText :=
  { text with
    status := if text.status = "queued" ∨ text.status = "retrying"
              then "unrecoverable" else text.status,
    tail := text.tail ++
      ["## Unrecoverable / Reason: " ++ reason ++ " / Marked at: " ++ ts] }

/-- mark_unrecoverable from `error_recovery/server.py`: NotFound if the
file is absent; otherwise replaces a queued/retrying status with
unrecoverable, appends a reason block, and renames the file into Done
under an UNRECOVERABLE_ name. -/
def mark_unrecoverable (filename reason ts : String) (st : ErrState) :
    OpResult × ErrState :=
  match lookupAL filename st.errorQueue with
  | none => ({ success := false,
               error := some ("File not found: " ++ filename) }, st)
  | some text =>
      let dest := "UNRECOVERABLE_" ++ filename
      let st₁ := { st with
        errorQueue := eraseAL filename st.errorQueue,
        done := setAL dest (unrecoverableText text reason ts) st.done }
      let st₂ := appendLog "error_unrecoverable"
          (filename ++ ": " ++ reason) "unrecoverable" ts st₁
      ({ success := true, file := some filename, moved_to := some dest,
         reason := some reason }, st₂)

/-- retriedCopy is the text written to Needs_Action by a retry: the
original text with its printed counter replaced by the incremented one,
its queued status pattern (if present) replaced by retrying, and the
retry-history entry either substituted for the placeholder (parsed count
zero) or appended at the end of the file. -/
def retriedCopy (text : ItemText) (ts : String) : ItemText :=
  let retry_entry := "- Retry " ++ toString (text.retry_count + 1) ++ ": " ++ ts
  { text with
    retry_count := text.retry_count + 1,
    status := if text.status = "queued" then "retrying" else text.status,
    historyPlaceholder :=
      if text.retry_count = 0 then false else text.historyPlaceholder,
    history :=
      if text.retry_count = 0 then [retry_entry] else text.history,
    tail :=
      if text.retry_count = 0 then text.tail
      else text.tail ++ [retry_entry] }

/-- retriedOriginal is the rewrite of the Error_Queue original performed
by a retry: it is re-read from disk and only its queued status pattern is
replaced by retrying — in particular its printed retry counter is kept. -/
def retriedOriginal (text : ItemText) : ItemText :=
  { text with
    status := if text.status = "queued" then "retrying" else text.status }

/-- retry_failed_action from `error_recovery/server.py`: NotFound if the
file is absent; once the parsed retry_count reaches MAX_RETRIES it
delegates to mark_unrecoverable; otherwise it writes a copy with the
incremented counter, retrying status and a retry-history entry into
Needs_Action under a RETRY_ name, while the Error_Queue original is
rewritten with only its queued status replaced by retrying. -/
def retry_failed_action (filename ts : String) (st : ErrState) :
    OpResult × ErrState :=
  match lookupAL filename st.errorQueue with
  | none => ({ success := false,
               error := some ("File not found: " ++ filename) }, st)
  | some text =>
      if text.retry_count ≥ MAX_RETRIES then
        mark_unrecoverable filename
          ("Max retries (" ++ toString MAX_RETRIES ++ ") exceeded") ts st
      else
        let dest := "RETRY_" ++ filename
        let st₁ := { st with
          needsAction := setAL dest (retriedCopy text ts) st.needsAction,
          errorQueue := setAL filename (retriedOriginal text) st.errorQueue }
        let st₂ := appendLog "error_retry"
            ("Retry " ++ toString (text.retry_count + 1) ++ "/"
              ++ toString MAX_RETRIES ++ " for " ++ filename) "retrying" ts st₁
        ({ success := true, file := some filename,
           retry_count := some (text.retry_count + 1),
           max_retries := some MAX_RETRIES,
           moved_to := some dest, status := some "retrying" }, st₂)

end ErrorRecovery

namespace OdooApi

/-- HITL_THRESHOLD from `odoo_api/server.py`; payment amounts are embedded
as exact rationals, which is faithful for the single comparison the code
performs, since every binary floating-point value is a rational and float
comparison agrees with rational comparison on the represented values. -/
def HITL_THRESHOLD : ℚ := 100

/-- ApprovalFile embeds an approval request file written into
Pending_Approval: its front-matter fields plus the free-text body. -/
structure ApprovalFile where
  type : String
  action : String
  created : String
  status : String
  body : String
deriving Repr, DecidableEq

/-- OdooCall is one authenticated `_execute` JSON-RPC attempt against the
Odoo backend, identified by model and method as in the source. -/
structure OdooCall where
  model : String
  method : String
deriving Repr, DecidableEq

/-- OdooState is the slice of the world the Odoo server touches: the
Pending_Approval directory, the audit log, and the trace of JSON-RPC
attempts actually issued to the backend. -/
structure OdooState where
  pendingApproval : List (String × ApprovalFile)
  log : List Entry
  calls : List OdooCall
deriving Repr, DecidableEq

/-- OdooEnv is the backend oracle: the outcome each issued `_execute`
attempt would have (`Except.error` embeds a raised exception). -/
def OdooEnv : Type := OdooCall → Except String String

/-- appendLogO embeds `_log` in `odoo_api/server.py`. -/
def appendLogO (action_type details result ts : String) (st : OdooState) :
    OdooState :=
  { st with log := st.log ++
      [{ timestamp := ts, action_type := action_type,
         actor := "OdooAPIServer", details := details, result := result }] }

/-- create_hitl embeds `_create_hitl` in `odoo_api/server.py`: writes an
approval file with front-matter status pending into Pending_Approval. -/
def create_hitl (action_type data ts : String) (st : OdooState) :
    String × OdooState :=
  let fname := "ODOO_" ++ upper action_type ++ "_" ++ ts ++ ".md"
  let content : ApprovalFile :=
    { type := "odoo_approval", action := action_type, created := ts,
      status := "pending", body := data }
  (fname,
   { st with pendingApproval := setAL fname content st.pendingApproval })

/-- record_payment from `odoo_api/server.py`: amounts above
HITL_THRESHOLD are diverted into a Pending_Approval file and the backend
is not contacted; otherwise the read and action_register_payment RPC
attempts are issued directly, with their outcome logged. -/
def record_payment (env : OdooEnv) (invoice_id : Nat) (amount : ℚ)
    (memo ts : String) (st : OdooState) : OpResult × OdooState :=
  if amount > HITL_THRESHOLD then
    let (fname, st₁) := create_hitl "payment"
      ("invoice_id " ++ toString invoice_id ++ " memo " ++ memo) ts st
    let st₂ := appendLogO "record_payment"
        ("Payment routed to HITL: " ++ fname) "pending_approval" ts st₁
    ({ success := true, status := some "pending_approval",
       approval_file := some fname,
       message := some "Approval required." }, st₂)
  else
    let st₁ := { st with calls := st.calls ++
      [{ model := "account.move", method := "read" }] }
    match env { model := "account.move", method := "read" } with
    | Except.error e =>
        (({ success := false, error := some e } : OpResult),
         appendLogO "record_payment" e "error" ts st₁)
    | Except.ok invoiceName =>
        let st₂ := { st₁ with calls := st₁.calls ++
          [{ model := "account.move", method := "action_register_payment" }] }
        match env { model := "account.move",
                    method := "action_register_payment" } with
        | Except.error e =>
            (({ success := false, error := some e } : OpResult),
             appendLogO "record_payment" e "error" ts st₂)
        | Except.ok _ =>
            (({ success := true, invoice := some invoiceName,
                amount := some amount } : OpResult),
             appendLogO "record_payment"
               ("Payment recorded for invoice " ++ invoiceName)
               "success" ts st₂)

end OdooApi

namespace SocialApi

/-- SocialState is the slice of the world the Facebook and Twitter MCP
servers touch: Pending_Approval, the audit log, and the trace of publish
calls issued to the platform (Graph API feed posts, Tweepy create_tweet). -/
structure SocialState where
  pendingApproval : List (String × OdooApi.ApprovalFile)
  log : List Entry
  publishCalls : List String
deriving Repr, DecidableEq

/-- appendLogS embeds `_log` of `facebook_api/server.py` and
`twitter_api/server.py`; the actor string distinguishes them. -/
def appendLogS (actor action_type details result ts : String)
    (st : SocialState) : SocialState :=
  { st with log := st.log ++
      [{ timestamp := ts, action_type := action_type, actor := actor,
         details := details, result := result }] }

/-- create_hitl_fb embeds `_create_hitl` in `facebook_api/server.py`. -/
def create_hitl_fb (content ts : String) (st : SocialState) :
    String × SocialState :=
  let fname := "FACEBOOK_POST_" ++ ts ++ ".md"
  let file : OdooApi.ApprovalFile :=
    { type := "facebook_post_approval", action := "post_to_page",
      created := ts, status := "pending", body := content }
  (fname,
   { st with pendingApproval := setAL fname file st.pendingApproval })

/-- post_to_page from `facebook_api/server.py`: always synthesizes a
pending approval file and returns pending_approval; the Graph API publish
call lives only in the separate `_publish_post`. -/
def post_to_page (message link ts : String) (st : SocialState) :
    OpResult × SocialState :=
  let (fname, st₁) := create_hitl_fb message ts st
  let st₂ := appendLogS "FacebookAPIServer" "facebook_post_hitl"
      ("Post queued for approval: " ++ fname) "pending_approval" ts st₁
  ({ success := true, status := some "pending_approval",
     approval_file := some fname,
     message := some "Post saved — move to /Approved/ to publish." }, st₂)

/-- publish_post embeds `_publish_post` in `facebook_api/server.py`, the
only function that issues the Graph API feed call; it is invoked by an
external collaborator after approval, never by post_to_page. -/
def publish_post (message ts : String) (st : SocialState) :
    OpResult × SocialState :=
  let st₁ := { st with publishCalls := st.publishCalls ++ [message] }
  (({ success := true } : OpResult),
   appendLogS "FacebookAPIServer" "facebook_post_published"
     "Post published" "success" ts st₁)

/-- create_hitl_tw embeds `_create_hitl` in `twitter_api/server.py`. -/
def create_hitl_tw (tweet_text ts : String) (st : SocialState) :
    String × SocialState :=
  let fname := "TWITTER_TWEET_" ++ ts ++ ".md"
  let file : OdooApi.ApprovalFile :=
    { type := "twitter_post_approval", action := "post_tweet",
      created := ts, status := "pending", body := tweet_text }
  (fname,
   { st with pendingApproval := setAL fname file st.pendingApproval })

/-- post_tweet from `twitter_api/server.py`: always synthesizes a pending
approval file and returns pending_approval; the Tweepy create_tweet call
lives only in the separate `_publish_tweet`. -/
def post_tweet (text reply_to ts : String) (st : SocialState) :
    OpResult × SocialState :=
  let (fname, st₁) := create_hitl_tw text ts st
  let st₂ := appendLogS "TwitterAPIServer" "twitter_post_hitl"
      ("Tweet queued for approval: " ++ fname) "pending_approval" ts st₁
  ({ success := true, status := some "pending_approval",
     approval_file := some fname, char_count := some text.length,
     message := some "Tweet saved — move to /Approved/ to publish." }, st₂)

/-- publish_tweet embeds `_publish_tweet` in `twitter_api/server.py`, the
only function that issues the create_tweet call. -/
def publish_tweet (text ts : String) (st : SocialState) :
    OpResult × SocialState :=
  let st₁ := { st with publishCalls := st.publishCalls ++ [text] }
  (({ success := true } : OpResult),
   appendLogS "TwitterAPIServer" "twitter_tweet_published"
     "Tweet published" "success" ts st₁)

end SocialApi

namespace FacebookWatcher

/-- FBPost is one element of the Graph API posts window. -/
structure FBPost where
  id : String
  message : String
deriving Repr, DecidableEq

/-- FBComment is one element of a post's comments window. -/
structure FBComment where
  id : String
  message : String
  from_name : String
  from_id : String
  created_time : String
deriving Repr, DecidableEq

/-- FBMention is one element of the page's tagged window. -/
structure FBMention where
  id : String
  message : String
  from_name : String
  created_time : String
  permalink_url : String
deriving Repr, DecidableEq

/-- FBItem is an ActionItem candidate dictionary emitted by the watcher. -/
inductive FBItem where
  | comment (comment_id post_id post_message comment_message from_name
      from_id created_time : String)
  | mention (mention_id message from_name created_time permalink_url : String)
deriving Repr, DecidableEq

/-- ident is the external identifier carried by an emitted item. -/
def FBItem.ident : FBItem → String
  | FBItem.comment cid _ _ _ _ _ _ => cid
  | FBItem.mention mid _ _ _ _ => mid

/-- isComment distinguishes the two emitted dictionary shapes. -/
def FBItem.isComment : FBItem → Bool
  | FBItem.comment _ _ _ _ _ _ _ => true
  | FBItem.mention _ _ _ _ _ => false

/-- FBEnv is the Graph API oracle for one tick: the upstream windows, or
the exception a request would raise. -/
structure FBEnv where
  posts : Except String (List FBPost)
  comments : String → Except String (List FBComment)
  tagged : Except String (List FBMention)

/-- FBState is the watcher's in-process state: the per-category seen-sets
(sets embedded as lists, only membership is consulted), the audit log and
the warning log. -/
structure FBState where
  seen_comment_ids : List String
  seen_mention_ids : List String
  log : List Entry
  warnings : List String
deriving Repr, DecidableEq

/-- graphFetch embeds `FacebookWatcher._graph` composed with
`.get("data", [])`: a raised request exception is caught, a warning is
logged, and the empty dictionary (hence empty data window) is returned. -/
def graphFetch {β : Type} (r : Except String (List β)) (st : FBState) :
    List β × FBState :=
  match r with
  | Except.error e =>
      ([], { st with warnings := st.warnings ++ ["Facebook API error: " ++ e] })
  | Except.ok l => (l, st)

/-- log_action appends one audit entry.
Modelled from the spec: `BaseWatcher.log_action` is declared in
`base_watcher.py`, which is not among the provided sources; per the spec
every mutating operation appends exactly one line with timestamp, action
kind, acting component, detail and outcome to the per-day audit log. -/
def log_action (actor action_type details result ts : String)
    (st : FBState) : FBState :=
  { st with log := st.log ++
      [{ timestamp := ts, action_type := action_type, actor := actor,
         details := details, result := result }] }

/-- commentStep is the body of the inner comment loop of
`FacebookWatcher._check_comments`: a comment with an id already in the
seen-set is skipped; otherwise the id is added to the set and the comment
dictionary is emitted. -/
def commentStep (post : FBPost) (acc : List FBItem × FBState)
    (c : FBComment) : List FBItem × FBState :=
  if c.id ∈ acc.2.seen_comment_ids then acc
  else
    (acc.1 ++
      [FBItem.comment c.id post.id post.message c.message
        c.from_name c.from_id c.created_time],
     { acc.2 with
       seen_comment_ids := acc.2.seen_comment_ids ++ [c.id] })

/-- postStep is the body of the outer post loop of
`FacebookWatcher._check_comments`: it fetches the post's comment window
and runs the comment loop over it. -/
def postStep (env : FBEnv) (acc : List FBItem × FBState) (post : FBPost) :
    List FBItem × FBState :=
  let (comments, s₁) := graphFetch (env.comments post.id) acc.2
  comments.foldl (commentStep post) (acc.1, s₁)

/-- check_comments embeds `FacebookWatcher._check_comments`: walk the
recent posts window, fetch each post's comments, and emit exactly the
comments whose id is absent from the seen-set, adding emitted ids. -/
def check_comments (env : FBEnv) (st : FBState) : List FBItem × FBState :=
  let (posts, st₁) := graphFetch env.posts st
  posts.foldl (postStep env) (([] : List FBItem), st₁)

/-- mentionStep is the body of the tagged loop of
`FacebookWatcher._check_mentions`. -/
def mentionStep (acc : List FBItem × FBState) (m : FBMention) :
    List FBItem × FBState :=
  if m.id ∈ acc.2.seen_mention_ids then acc
  else
    (acc.1 ++
      [FBItem.mention m.id m.message m.from_name m.created_time
        m.permalink_url],
     { acc.2 with
       seen_mention_ids := acc.2.seen_mention_ids ++ [m.id] })

/-- check_mentions embeds `FacebookWatcher._check_mentions`. -/
def check_mentions (env : FBEnv) (st : FBState) : List FBItem × FBState :=
  let (tagged, st₁) := graphFetch env.tagged st
  tagged.foldl mentionStep (([] : List FBItem), st₁)

/-- check_for_updates from `facebook_watcher.py`: skips without items when
no access token is configured; otherwise gathers the comment and mention
candidates (upstream failures having been absorbed into empty windows by
`_graph`) and logs the tick. -/
def check_for_updates (access_token : String) (env : FBEnv) (ts : String)
    (st : FBState) : List FBItem × FBState :=
  if access_token = "" then
    ([], log_action "FacebookWatcher" "facebook_check"
      "FACEBOOK_ACCESS_TOKEN not configured — skipping" "skipped" ts st)
  else
    let (cs, st₁) := check_comments env st
    let (ms, st₂) := check_mentions env st₁
    let items := cs ++ ms
    (items, log_action "FacebookWatcher" "facebook_check"
      ("Facebook check complete: " ++ toString items.length ++ " item(s) found")
      "success" ts st₂)

end FacebookWatcher

namespace OdooWatcher

/-- Invoice is one row of the overdue-invoice search_read window. -/
structure Invoice where
  id : Nat
  name : String
  partner : String
  amount_total : ℚ
  invoice_date_due : String
  move_type : String
deriving Repr, DecidableEq

/-- Payment is one row of the posted-payments search_read window. -/
structure Payment where
  id : Nat
  name : String
  partner : String
  amount : ℚ
  payment_type : String
  date : String
deriving Repr, DecidableEq

/-- OdooItem is an ActionItem candidate dictionary emitted by the watcher. -/
inductive OdooItem where
  | overdue (inv : Invoice)
  | newPayment (p : Payment)
  | lowBalance (total_cash threshold : ℚ)
deriving Repr, DecidableEq

/-- OdooWEnv is the JSON-RPC oracle for one tick; `Except.error` embeds a
request failure, which `OdooWatcher._call` catches (returning None, which
the callers turn into an empty row list).  `auth` is the outcome of
`_authenticate` (a `_call` itself), consulted before every query. -/
structure OdooWEnv where
  auth : Except String Nat
  overdue : Except String (List Invoice)
  payments : Except String (List Payment)
  cashBalances : Except String (List ℚ)

/-- OdooWState is the watcher's in-process state: the seen invoice-id set
(a list consulted only for membership), the payments cursor, the audit
log and the warning log. -/
structure OdooWState where
  seen_invoice_ids : List Nat
  last_payment_check : String
  log : List Entry
  warnings : List String
deriving Repr, DecidableEq

/-- warn records one `logger.warning` line from `OdooWatcher._call`. -/
def warn (e : String) (st : OdooWState) : OdooWState :=
  { st with warnings := st.warnings ++ ["Odoo RPC failed: " ++ e] }

/-- rpcFetch embeds `OdooWatcher._execute`: `_authenticate` is a `_call`
whose raised exception is caught with a warning and yields no uid, in
which case the row query is not even issued and the empty list is
returned; otherwise the search_read `_call` likewise absorbs its own
failure into an empty row list. -/
def rpcFetch {β : Type} (auth : Except String Nat)
    (r : Except String (List β)) (st : OdooWState) :
    List β × OdooWState :=
  match auth with
  | Except.error e => ([], warn e st)
  | Except.ok _ =>
      match r with
      | Except.error e => ([], warn e st)
      | Except.ok l => (l, st)

/-- log_action appends one audit entry.
Modelled from the spec: `BaseWatcher.log_action` is declared in
`base_watcher.py`, which is not among the provided sources; per the spec
every mutating operation appends exactly one line with timestamp, action
kind, acting component, detail and outcome to the per-day audit log. -/
def log_action (actor action_type details result ts : String)
    (st : OdooWState) : OdooWState :=
  { st with log := st.log ++
      [{ timestamp := ts, action_type := action_type, actor := actor,
         details := details, result := result }] }

/-- check_overdue_invoices embeds `OdooWatcher._check_overdue_invoices`:
the fetched window is filtered against the pre-existing seen-set and the
seen-set is then extended with every fetched id. -/
def check_overdue_invoices (env : OdooWEnv) (st : OdooWState) :
    List OdooItem × OdooWState :=
  let (invoices, st₁) := rpcFetch env.auth env.overdue st
  let new_overdue := invoices.filter
    (fun inv => inv.id ∉ st₁.seen_invoice_ids)
  let st₂ := { st₁ with
    seen_invoice_ids := st₁.seen_invoice_ids ++ invoices.map (fun inv => inv.id) }
  (new_overdue.map OdooItem.overdue, st₂)

/-- check_new_payments embeds `OdooWatcher._check_new_payments`: at most
once per day, returns the posted payments dated at the previous cursor
and advances the cursor to today. -/
def check_new_payments (env : OdooWEnv) (today : String) (st : OdooWState) :
    List OdooItem × OdooWState :=
  if st.last_payment_check = today then ([], st)
  else
    let (payments, st₁) := rpcFetch env.auth env.payments st
    (payments.map OdooItem.newPayment,
     { st₁ with last_payment_check := today })

/-- LOW_BALANCE_THRESHOLD default from `odoo_watcher.py`. -/
def LOW_BALANCE_THRESHOLD : ℚ := 1000

/-- check_balance_alert embeds `OdooWatcher._check_balance_alert`: an
authentication failure returns no items before any balance query, but a
failed balance query after a successful authentication is absorbed into
an empty account list, whose cash total of zero is below the threshold. -/
def check_balance_alert (env : OdooWEnv) (st : OdooWState) :
    List OdooItem × OdooWState :=
  match env.auth with
  | Except.error e => ([], warn e st)
  | Except.ok _ =>
      let (balances, st₁) :=
        match env.cashBalances with
        | Except.error e => (([] : List ℚ), warn e st)
        | Except.ok l => (l, st)
      let total_cash := balances.sum
      if total_cash < LOW_BALANCE_THRESHOLD then
        ([OdooItem.lowBalance total_cash LOW_BALANCE_THRESHOLD], st₁)
      else ([], st₁)

/-- check_for_updates from `odoo_watcher.py`: gathers the three checks'
candidates (upstream failures having been absorbed into empty windows by
`_call`) and logs the tick. -/
def check_for_updates (env : OdooWEnv) (today ts : String)
    (st : OdooWState) : List OdooItem × OdooWState :=
  let (xs, st₁) := check_overdue_invoices env st
  let (ys, st₂) := check_new_payments env today st₁
  let (zs, st₃) := check_balance_alert env st₂
  let items := xs ++ ys ++ zs
  (items, log_action "OdooWatcher" "odoo_check"
    ("Odoo check complete: " ++ toString items.length ++ " item(s) found")
    "success" ts st₃)

end OdooWatcher

/-- C2: For both always-gated action categories — Facebook page posts via
post_to_page and tweets via post_tweet — the gating operation persists an
ApprovalRequest file with front-matter status pending into
Pending_Approval and returns status pending_approval, and it never issues
the underlying publish call: the platform publish trace is unchanged on
every input. -/
theorem C2_always_gated_posts (message link text reply_to ts₁ ts₂ : String)
    (st₁ st₂ : SocialApi.SocialState) :
    ((SocialApi.post_to_page message link ts₁ st₁).1.status
        = some "pending_approval" ∧
     (SocialApi.post_to_page message link ts₁ st₁).1.success = true ∧
     (∃ file, lookupAL ("FACEBOOK_POST_" ++ ts₁ ++ ".md")
        (SocialApi.post_to_page message link ts₁ st₁).2.pendingApproval
          = some file ∧ file.status = "pending") ∧
     (SocialApi.post_to_page message link ts₁ st₁).2.publishCalls
        = st₁.publishCalls) ∧
    ((SocialApi.post_tweet text reply_to ts₂ st₂).1.status
        = some "pending_approval" ∧
     (SocialApi.post_tweet text reply_to ts₂ st₂).1.success = true ∧
     (∃ file, lookupAL ("TWITTER_TWEET_" ++ ts₂ ++ ".md")
        (SocialApi.post_tweet text reply_to ts₂ st₂).2.pendingApproval
          = some file ∧ file.status = "pending") ∧
     (SocialApi.post_tweet text reply_to ts₂ st₂).2.publishCalls
        = st₂.publishCalls) := by
  constructor
  · exact ⟨rfl, rfl, ⟨_, lookupAL_setAL_self _ _ _, rfl⟩, rfl⟩
  · exact ⟨rfl, rfl, ⟨_, lookupAL_setAL_self _ _ _, rfl⟩, rfl⟩

/-- C1: record_payment gates every amount strictly above the HITL
threshold into a pending ApprovalRequest file in Pending_Approval and
returns pending_approval without issuing any Odoo RPC attempt; for every
amount at or below the threshold no ApprovalRequest is created and the
payment RPC attempt is issued directly (the register call completing
whenever the backend read succeeds), with the outcome logged. -/
theorem C1_record_payment_threshold (env : OdooApi.OdooEnv)
    (invoice_id : Nat) (a : ℚ) (memo ts : String) (st : OdooApi.OdooState) :
    (OdooApi.HITL_THRESHOLD < a →
      (OdooApi.record_payment env invoice_id a memo ts st).1.status
          = some "pending_approval" ∧
      (OdooApi.record_payment env invoice_id a memo ts st).1.success = true ∧
      (∃ fname file,
        (OdooApi.record_payment env invoice_id a memo ts st).1.approval_file
            = some fname ∧
        lookupAL fname
          (OdooApi.record_payment env invoice_id a memo ts st).2.pendingApproval
            = some file ∧
        file.status = "pending") ∧
      (OdooApi.record_payment env invoice_id a memo ts st).2.calls
          = st.calls) ∧
    (a ≤ OdooApi.HITL_THRESHOLD →
      (OdooApi.record_payment env invoice_id a memo ts st).2.pendingApproval
          = st.pendingApproval ∧
      (∃ rest, (OdooApi.record_payment env invoice_id a memo ts st).2.calls
          = st.calls ++
            ({ model := "account.move", method := "read" } : OdooApi.OdooCall)
              :: rest) ∧
      (∀ nm, env { model := "account.move", method := "read" }
              = Except.ok nm →
        ({ model := "account.move", method := "action_register_payment" } :
            OdooApi.OdooCall)
          ∈ (OdooApi.record_payment env invoice_id a memo ts st).2.calls) ∧
      (∃ e, (OdooApi.record_payment env invoice_id a memo ts st).2.log
          = st.log ++ [e])) := by
  constructor
  · intro h
    unfold OdooApi.record_payment
    rw [if_pos h]
    exact ⟨rfl, rfl, ⟨_, _, rfl, lookupAL_setAL_self _ _ _, rfl⟩, rfl⟩
  · intro h
    have hn : ¬ (OdooApi.HITL_THRESHOLD < a) := not_lt.mpr h
    unfold OdooApi.record_payment
    rw [if_neg hn]
    cases henv : env { model := "account.move", method := "read" } with
    | error e =>
        refine ⟨rfl, ⟨[], rfl⟩, ?_, ⟨_, rfl⟩⟩
        intro nm hnm
        exact absurd hnm (by simp)
    | ok nm =>
        cases henv₂ : env
            { model := "account.move", method := "action_register_payment" } with
        | error e =>
            refine ⟨rfl,
              ⟨[{ model := "account.move",
                  method := "action_register_payment" }],
               by simp [OdooApi.appendLogO]⟩, ?_, ⟨_, rfl⟩⟩
            intro nm₂ _
            simp [OdooApi.appendLogO]
        | ok v =>
            refine ⟨rfl,
              ⟨[{ model := "account.move",
                  method := "action_register_payment" }],
               by simp [OdooApi.appendLogO]⟩, ?_, ⟨_, rfl⟩⟩
            intro nm₂ _
            simp [OdooApi.appendLogO]

/-- C1 witness: both branches of the threshold theorem applied at the
concrete amounts 150 and 50 on the empty state with an
always-succeeding backend. -/
theorem C1_record_payment_threshold_witness :
    ((OdooApi.record_payment (fun _ => Except.ok "INV-1") 7 150 "m" "T"
        ⟨[], [], []⟩).1.status = some "pending_approval" ∧
     (OdooApi.record_payment (fun _ => Except.ok "INV-1") 7 150 "m" "T"
        ⟨[], [], []⟩).1.success = true ∧
     (∃ fname file,
        (OdooApi.record_payment (fun _ => Except.ok "INV-1") 7 150 "m" "T"
            ⟨[], [], []⟩).1.approval_file = some fname ∧
        lookupAL fname
          (OdooApi.record_payment (fun _ => Except.ok "INV-1") 7 150 "m" "T"
            ⟨[], [], []⟩).2.pendingApproval = some file ∧
        file.status = "pending") ∧
     (OdooApi.record_payment (fun _ => Except.ok "INV-1") 7 150 "m" "T"
        ⟨[], [], []⟩).2.calls = ([] : List OdooApi.OdooCall)) ∧
    ((OdooApi.record_payment (fun _ => Except.ok "INV-1") 7 50 "m" "T"
        ⟨[], [], []⟩).2.pendingApproval = [] ∧
     (∃ rest, (OdooApi.record_payment (fun _ => Except.ok "INV-1") 7 50 "m" "T"
        ⟨[], [], []⟩).2.calls
          = [] ++
            ({ model := "account.move", method := "read" } : OdooApi.OdooCall)
              :: rest) ∧
     (∀ nm, (fun _ => Except.ok "INV-1" :
          OdooApi.OdooEnv) { model := "account.move", method := "read" }
            = Except.ok nm →
        ({ model := "account.move", method := "action_register_payment" } :
            OdooApi.OdooCall)
          ∈ (OdooApi.record_payment (fun _ => Except.ok "INV-1") 7 50 "m" "T"
              ⟨[], [], []⟩).2.calls) ∧
     (∃ e, (OdooApi.record_payment (fun _ => Except.ok "INV-1") 7 50 "m" "T"
        ⟨[], [], []⟩).2.log = [] ++ [e])) :=
  ⟨(C1_record_payment_threshold (fun _ => Except.ok "INV-1") 7 150 "m" "T"
      ⟨[], [], []⟩).1 (by norm_num [OdooApi.HITL_THRESHOLD]),
   (C1_record_payment_threshold (fun _ => Except.ok "INV-1") 7 50 "m" "T"
      ⟨[], [], []⟩).2 (by norm_num [OdooApi.HITL_THRESHOLD])⟩

namespace ErrorRecovery

theorem retry_notfound (filename ts : String) (st : ErrState)
    (h : lookupAL filename st.errorQueue = none) :
    retry_failed_action filename ts st =
      ({ success := false,
         error := some ("File not found: " ++ filename) }, st) := by
  simp only [retry_failed_action, h]

theorem mark_notfound (filename reason ts : String) (st : ErrState)
    (h : lookupAL filename st.errorQueue = none) :
    mark_unrecoverable filename reason ts st =
      ({ success := false,
         error := some ("File not found: " ++ filename) }, st) := by
  simp only [mark_unrecoverable, h]

theorem mark_step (filename reason ts : String) (st : ErrState)
    (t : ItemText) (h : lookupAL filename st.errorQueue = some t) :
    mark_unrecoverable filename reason ts st =
      ({ success := true, file := some filename,
         moved_to := some ("UNRECOVERABLE_" ++ filename),
         reason := some reason },
       appendLog "error_unrecoverable" (filename ++ ": " ++ reason)
         "unrecoverable" ts
         { st with
           errorQueue := eraseAL filename st.errorQueue,
           done := setAL ("UNRECOVERABLE_" ++ filename)
             (unrecoverableText t reason ts) st.done }) := by
  simp only [mark_unrecoverable, h]

theorem retry_step (filename ts : String) (st : ErrState)
    (t : ItemText) (h : lookupAL filename st.errorQueue = some t)
    (hlt : t.retry_count < MAX_RETRIES) :
    retry_failed_action filename ts st =
      ({ success := true, file := some filename,
         retry_count := some (t.retry_count + 1),
         max_retries := some MAX_RETRIES,
         moved_to := some ("RETRY_" ++ filename),
         status := some "retrying" },
       appendLog "error_retry"
         ("Retry " ++ toString (t.retry_count + 1) ++ "/"
           ++ toString MAX_RETRIES ++ " for " ++ filename) "retrying" ts
         { st with
           needsAction := setAL ("RETRY_" ++ filename) (retriedCopy t ts)
             st.needsAction,
           errorQueue := setAL filename (retriedOriginal t)
             st.errorQueue }) := by
  simp only [retry_failed_action, h, if_neg (not_le.mpr hlt)]

theorem retry_delegates (filename ts : String) (st : ErrState)
    (t : ItemText) (h : lookupAL filename st.errorQueue = some t)
    (hge : MAX_RETRIES ≤ t.retry_count) :
    retry_failed_action filename ts st =
      mark_unrecoverable filename "Max retries (3) exceeded" ts st := by
  have hs : "Max retries (" ++ toString MAX_RETRIES ++ ") exceeded"
      = "Max retries (3) exceeded" := by decide
  simp only [retry_failed_action, h, if_pos hge, hs]

end ErrorRecovery

namespace ErrorRecovery

/-- sampleItem builds a concrete Error_Queue item for closed instances:
the front matter queue_for_retry would have generated, with a chosen
counter and status. -/
def sampleItem (n : Nat) (status : String) : ItemText :=
  { action_type := "facebook_post", created := "T0", retry_count := n,
    max_retries := MAX_RETRIES, status := status, description := "d",
    original_error := "timeout", payload := "p",
    historyPlaceholder := true, history := [], tail := [] }

end ErrorRecovery

/-- C5: For every Error_Queue item whose parsed retry_count has reached
max_retries (3), retry_failed_action is literally the mark_unrecoverable
call with the max-retries reason: the item's rewritten status is
unrecoverable, the file leaves Error_Queue for an UNRECOVERABLE_ name in
Done, and after the move, a repeated retry_failed_action and a repeated
mark_unrecoverable still agree, both reporting the structured NotFound
failure with the state unchanged. -/
theorem C5_retry_at_max_equals_mark (f ts ts₂ : String)
    (st : ErrorRecovery.ErrState) (t : ErrorRecovery.ItemText)
    (h1 : lookupAL f st.errorQueue = some t)
    (h2 : ErrorRecovery.MAX_RETRIES ≤ t.retry_count)
    (h3 : t.status = "queued" ∨ t.status = "retrying"
          ∨ t.status = "unrecoverable") :
    ErrorRecovery.retry_failed_action f ts st
      = ErrorRecovery.mark_unrecoverable f "Max retries (3) exceeded" ts st ∧
    (∀ reason,
      lookupAL f
        (ErrorRecovery.mark_unrecoverable f reason ts st).2.errorQueue
        = none ∧
      (∃ t₁, lookupAL ("UNRECOVERABLE_" ++ f)
          (ErrorRecovery.mark_unrecoverable f reason ts st).2.done = some t₁ ∧
        t₁.status = "unrecoverable")) ∧
    (ErrorRecovery.retry_failed_action f ts₂
        (ErrorRecovery.retry_failed_action f ts st).2
      = ({ success := false, error := some ("File not found: " ++ f) },
         (ErrorRecovery.retry_failed_action f ts st).2) ∧
     ErrorRecovery.mark_unrecoverable f "Max retries (3) exceeded" ts₂
        (ErrorRecovery.retry_failed_action f ts st).2
      = ({ success := false, error := some ("File not found: " ++ f) },
         (ErrorRecovery.retry_failed_action f ts st).2)) := by
  have hd := ErrorRecovery.retry_delegates f ts st t h1 h2
  refine ⟨hd, ?_, ?_⟩
  · intro reason
    have hm := ErrorRecovery.mark_step f reason ts st t h1
    rw [hm]
    refine ⟨lookupAL_eraseAL_self f st.errorQueue,
      ⟨_, lookupAL_setAL_self _ _ _, ?_⟩⟩
    rcases h3 with h | h | h <;>
      simp [ErrorRecovery.unrecoverableText, h]
  · have hm := ErrorRecovery.mark_step f "Max retries (3) exceeded" ts st t h1
    have hgone : lookupAL f
        (ErrorRecovery.retry_failed_action f ts st).2.errorQueue = none := by
      rw [hd, hm]
      exact lookupAL_eraseAL_self f st.errorQueue
    exact ⟨ErrorRecovery.retry_notfound f ts₂ _ hgone,
      ErrorRecovery.mark_notfound f "Max retries (3) exceeded" ts₂ _ hgone⟩

/-- C5 witness: the theorem applied to a concrete maxed-out queued item,
showing the lookup hypothesis holds there and the retry call equals the
mark_unrecoverable call. -/
theorem C5_retry_at_max_equals_mark_witness :
    lookupAL "ERROR_X.md"
      (ErrorRecovery.ErrState.mk
        [("ERROR_X.md", ErrorRecovery.sampleItem 3 "queued")] [] [] []).errorQueue
      = some (ErrorRecovery.sampleItem 3 "queued") ∧
    ErrorRecovery.retry_failed_action "ERROR_X.md" "T1"
      (ErrorRecovery.ErrState.mk
        [("ERROR_X.md", ErrorRecovery.sampleItem 3 "queued")] [] [] [])
      = ErrorRecovery.mark_unrecoverable "ERROR_X.md"
          "Max retries (3) exceeded" "T1"
          (ErrorRecovery.ErrState.mk
            [("ERROR_X.md", ErrorRecovery.sampleItem 3 "queued")] [] [] []) :=
  ⟨rfl,
   (C5_retry_at_max_equals_mark "ERROR_X.md" "T1" "T2"
      (ErrorRecovery.ErrState.mk
        [("ERROR_X.md", ErrorRecovery.sampleItem 3 "queued")] [] [] [])
      (ErrorRecovery.sampleItem 3 "queued") rfl (by decide)
      (Or.inl rfl)).1⟩

/-- C6: mark_unrecoverable is idempotent in effect: the first successful
call removes the file from Error_Queue and lands it in Done under an
UNRECOVERABLE_ name, and a second call with the same reference returns
the structured NotFound failure with the state untouched, so the move is
never duplicated. -/
theorem C6_mark_unrecoverable_idempotent (f reason reason₂ ts ts₂ : String)
    (st : ErrorRecovery.ErrState) (t : ErrorRecovery.ItemText)
    (h1 : lookupAL f st.errorQueue = some t) :
    (ErrorRecovery.mark_unrecoverable f reason ts st).1.success = true ∧
    lookupAL f
      (ErrorRecovery.mark_unrecoverable f reason ts st).2.errorQueue
      = none ∧
    (∃ t₁, lookupAL ("UNRECOVERABLE_" ++ f)
        (ErrorRecovery.mark_unrecoverable f reason ts st).2.done = some t₁) ∧
    ErrorRecovery.mark_unrecoverable f reason₂ ts₂
        (ErrorRecovery.mark_unrecoverable f reason ts st).2
      = ({ success := false, error := some ("File not found: " ++ f) },
         (ErrorRecovery.mark_unrecoverable f reason ts st).2) := by
  have hm := ErrorRecovery.mark_step f reason ts st t h1
  have hgone : lookupAL f
      (ErrorRecovery.mark_unrecoverable f reason ts st).2.errorQueue
      = none := by
    rw [hm]
    exact lookupAL_eraseAL_self f st.errorQueue
  refine ⟨by rw [hm], hgone, ?_, ?_⟩
  · rw [hm]
    exact ⟨_, lookupAL_setAL_self _ _ _⟩
  · exact ErrorRecovery.mark_notfound f reason₂ ts₂ _ hgone

/-- C6 witness: the theorem applied to a concrete queued item, showing
the second call against the same reference is the structured NotFound
failure leaving the state unchanged. -/
theorem C6_mark_unrecoverable_idempotent_witness :
    lookupAL "ERROR_Y.md"
      (ErrorRecovery.ErrState.mk
        [("ERROR_Y.md", ErrorRecovery.sampleItem 0 "queued")] [] [] []).errorQueue
      = some (ErrorRecovery.sampleItem 0 "queued") ∧
    ErrorRecovery.mark_unrecoverable "ERROR_Y.md" "r2" "T2"
        (ErrorRecovery.mark_unrecoverable "ERROR_Y.md" "r1" "T1"
          (ErrorRecovery.ErrState.mk
            [("ERROR_Y.md", ErrorRecovery.sampleItem 0 "queued")] [] [] [])).2
      = ({ success := false, error := some ("File not found: ERROR_Y.md") },
         (ErrorRecovery.mark_unrecoverable "ERROR_Y.md" "r1" "T1"
           (ErrorRecovery.ErrState.mk
             [("ERROR_Y.md", ErrorRecovery.sampleItem 0 "queued")] [] [] [])).2) :=
  ⟨rfl,
   (C6_mark_unrecoverable_idempotent "ERROR_Y.md" "r1" "r2" "T1" "T2"
      (ErrorRecovery.ErrState.mk
        [("ERROR_Y.md", ErrorRecovery.sampleItem 0 "queued")] [] [] [])
      (ErrorRecovery.sampleItem 0 "queued") rfl).2.2.2⟩

/-- C10: After a successful retry of an existing queued item below the
retry bound, the Error_Queue original differs from its prior content in
the status field alone — its printed retry counter keeps its prior value
— while the incremented counter and the appended retry-history entry
appear only in the RETRY_ copy in Needs_Action; consequently, another
retry of the same original still reads the unincremented counter and
returns the same incremented value again. -/
theorem C10_retry_frame_effect (f ts ts₂ : String)
    (st : ErrorRecovery.ErrState) (t : ErrorRecovery.ItemText)
    (h1 : lookupAL f st.errorQueue = some t)
    (h2 : t.status = "queued")
    (h3 : t.retry_count < ErrorRecovery.MAX_RETRIES) :
    lookupAL f
      (ErrorRecovery.retry_failed_action f ts st).2.errorQueue
      = some { t with status := "retrying" } ∧
    (∃ c, lookupAL ("RETRY_" ++ f)
        (ErrorRecovery.retry_failed_action f ts st).2.needsAction = some c ∧
      c.retry_count = t.retry_count + 1 ∧ c.status = "retrying" ∧
      (if t.retry_count = 0
        then c.history = ["- Retry " ++ toString (t.retry_count + 1)
            ++ ": " ++ ts]
        else c.tail = t.tail ++ ["- Retry " ++ toString (t.retry_count + 1)
            ++ ": " ++ ts])) ∧
    (ErrorRecovery.retry_failed_action f ts₂
        (ErrorRecovery.retry_failed_action f ts st).2).1.retry_count
      = some (t.retry_count + 1) := by
  have hr := ErrorRecovery.retry_step f ts st t h1 h3
  have horig : ErrorRecovery.retriedOriginal t = { t with status := "retrying" } := by
    simp [ErrorRecovery.retriedOriginal, h2]
  have hlook : lookupAL f
      (ErrorRecovery.retry_failed_action f ts st).2.errorQueue
      = some { t with status := "retrying" } := by
    rw [hr]
    show lookupAL f (setAL f (ErrorRecovery.retriedOriginal t) st.errorQueue)
        = some { t with status := "retrying" }
    rw [lookupAL_setAL_self, horig]
  refine ⟨hlook, ?_, ?_⟩
  · refine ⟨ErrorRecovery.retriedCopy t ts, ?_, ?_, ?_, ?_⟩
    · rw [hr]
      exact lookupAL_setAL_self _ _ _
    · rfl
    · simp [ErrorRecovery.retriedCopy, h2]
    · by_cases h0 : t.retry_count = 0 <;>
        simp [ErrorRecovery.retriedCopy, h0]
  · have h3' : ({ t with status := "retrying" } :
        ErrorRecovery.ItemText).retry_count < ErrorRecovery.MAX_RETRIES := h3
    have hr₂ := ErrorRecovery.retry_step f ts₂
      (ErrorRecovery.retry_failed_action f ts st).2
      { t with status := "retrying" } hlook h3'
    rw [hr₂]

/-- C10 witness: the theorem applied to a concrete fresh queued item: the
original keeps counter 0 with status retrying, the copy carries counter 1,
and a second retry still returns counter 1. -/
theorem C10_retry_frame_effect_witness :
    lookupAL "ERROR_Z.md"
      (ErrorRecovery.ErrState.mk
        [("ERROR_Z.md", ErrorRecovery.sampleItem 0 "queued")] [] [] []).errorQueue
      = some (ErrorRecovery.sampleItem 0 "queued") ∧
    (ErrorRecovery.retry_failed_action "ERROR_Z.md" "T2"
        (ErrorRecovery.retry_failed_action "ERROR_Z.md" "T1"
          (ErrorRecovery.ErrState.mk
            [("ERROR_Z.md", ErrorRecovery.sampleItem 0 "queued")] [] [] [])).2).1.retry_count
      = some 1 :=
  ⟨rfl,
   (C10_retry_frame_effect "ERROR_Z.md" "T1" "T2"
      (ErrorRecovery.ErrState.mk
        [("ERROR_Z.md", ErrorRecovery.sampleItem 0 "queued")] [] [] [])
      (ErrorRecovery.sampleItem 0 "queued") rfl rfl (by decide)).2.2⟩

namespace ErrorRecovery

/-- itemKey strips the operational filename marker the tools prepend when
relocating an item (RETRY_ into Needs_Action, UNRECOVERABLE_ into Done),
recovering the underlying item filename so residency of one item can be
traced across state directories. -/
def itemKey (f : String) : String :=
  if "RETRY_".data.isPrefixOf f.data then String.mk (f.data.drop 6)
  else if "UNRECOVERABLE_".data.isPrefixOf f.data then
    String.mk (f.data.drop 14)
  else f

/-- dirsHolding counts the workflow directories currently holding a file
of the given underlying item. -/
def dirsHolding (st : ErrState) (key : String) : Nat :=
  (if st.errorQueue.any (fun p => itemKey p.1 = key) then 1 else 0) +
  (if st.needsAction.any (fun p => itemKey p.1 = key) then 1 else 0) +
  (if st.done.any (fun p => itemKey p.1 = key) then 1 else 0)

/-- runSt0 is the empty vault slice. -/
def runSt0 : ErrState := { errorQueue := [], needsAction := [], done := [],
                           log := [] }

/-- runFname is the filename queue_for_retry generates in the concrete
run below. -/
def runFname : String := "ERROR_FACEBOOK_POST_T1.md"

/-- runSt1 holds one freshly queued facebook_post failure. -/
def runSt1 : ErrState :=
  (queue_for_retry "facebook_post" "desc" "p" "timeout" "T1" runSt0).2

/-- runSt2 is the state after the first retry call. -/
def runSt2 : ErrState := (retry_failed_action runFname "T2" runSt1).2

/-- runSt3 is the state after the second retry call. -/
def runSt3 : ErrState := (retry_failed_action runFname "T3" runSt2).2

/-- runSt4 is the state after the third retry call. -/
def runSt4 : ErrState := (retry_failed_action runFname "T4" runSt3).2

end ErrorRecovery

/-- C3: Evaluating the code on a freshly queued ErrorQueueItem shows the
claimed counter progression does not occur: each of the three
retry_failed_action calls re-reads the Error_Queue original, whose
printed counter is never incremented, so every call reports retry_count
1 with status retrying, the original still carries counter 0 after all
three calls, and nothing is ever escalated into Done. -/
theorem C3_retry_counter_never_advances :
    (ErrorRecovery.retry_failed_action ErrorRecovery.runFname "T2"
      ErrorRecovery.runSt1).1.retry_count = some 1 ∧
    (ErrorRecovery.retry_failed_action ErrorRecovery.runFname "T3"
      ErrorRecovery.runSt2).1.retry_count = some 1 ∧
    (ErrorRecovery.retry_failed_action ErrorRecovery.runFname "T4"
      ErrorRecovery.runSt3).1.retry_count = some 1 ∧
    (ErrorRecovery.retry_failed_action ErrorRecovery.runFname "T4"
      ErrorRecovery.runSt3).1.status = some "retrying" ∧
    (lookupAL ErrorRecovery.runFname ErrorRecovery.runSt4.errorQueue).map
      (fun t => t.retry_count) = some 0 ∧
    (lookupAL ErrorRecovery.runFname ErrorRecovery.runSt4.errorQueue).map
      (fun t => t.status) = some "retrying" ∧
    ErrorRecovery.runSt4.done = [] := by
  decide

/-- C4 counterexample: after one legitimate retry of a freshly queued
item, the same underlying item is simultaneously resident in two state
directories — the original in Error_Queue and the RETRY_ copy in
Needs_Action, both carrying the item's payload — refuting single
residency at this concrete instant. -/
theorem C4_two_directories_counterexample :
    ErrorRecovery.dirsHolding ErrorRecovery.runSt2 ErrorRecovery.runFname
      = 2 ∧
    (lookupAL ErrorRecovery.runFname
      ErrorRecovery.runSt2.errorQueue).map (fun t => t.payload) = some "p" ∧
    (lookupAL ("RETRY_" ++ ErrorRecovery.runFname)
      ErrorRecovery.runSt2.needsAction).map (fun t => t.payload)
      = some "p" := by
  decide

/-- C4 amended: single residency holds for the other mutations —
queue_for_retry writes its fresh file into Error_Queue alone, and
mark_unrecoverable removes the Error_Queue original in the very step
that lands the rewritten file in Done — but a below-bound
retry_failed_action leaves the same item resident in Error_Queue and
Needs_Action at once. -/
theorem C4_residency_amended (a d p e f ts reason : String)
    (st : ErrorRecovery.ErrState) (t : ErrorRecovery.ItemText)
    (h1 : lookupAL f st.errorQueue = some t)
    (h2 : t.retry_count < ErrorRecovery.MAX_RETRIES) :
    ((ErrorRecovery.queue_for_retry a d p e ts st).2.needsAction
        = st.needsAction ∧
     (ErrorRecovery.queue_for_retry a d p e ts st).2.done = st.done) ∧
    (lookupAL f
        (ErrorRecovery.mark_unrecoverable f reason ts st).2.errorQueue
        = none ∧
     (∃ t₁, lookupAL ("UNRECOVERABLE_" ++ f)
        (ErrorRecovery.mark_unrecoverable f reason ts st).2.done = some t₁) ∧
     (ErrorRecovery.mark_unrecoverable f reason ts st).2.needsAction
        = st.needsAction) ∧
    (lookupAL f
        (ErrorRecovery.retry_failed_action f ts st).2.errorQueue
        = some (ErrorRecovery.retriedOriginal t) ∧
     lookupAL ("RETRY_" ++ f)
        (ErrorRecovery.retry_failed_action f ts st).2.needsAction
        = some (ErrorRecovery.retriedCopy t ts)) := by
  have hm := ErrorRecovery.mark_step f reason ts st t h1
  have hr := ErrorRecovery.retry_step f ts st t h1 h2
  refine ⟨⟨rfl, rfl⟩, ⟨?_, ?_, ?_⟩, ?_, ?_⟩
  · rw [hm]
    exact lookupAL_eraseAL_self f st.errorQueue
  · rw [hm]
    exact ⟨_, lookupAL_setAL_self _ _ _⟩
  · rw [hm]
    rfl
  · rw [hr]
    exact lookupAL_setAL_self _ _ _
  · rw [hr]
    exact lookupAL_setAL_self _ _ _

/-- C4 amended witness: the amended theorem applied to the concrete
one-item state of the counterexample run. -/
theorem C4_residency_amended_witness :
    lookupAL ErrorRecovery.runFname ErrorRecovery.runSt1.errorQueue
      = some (ErrorRecovery.ItemText.mk "facebook_post" "T1" 0 3 "queued"
          "desc" "timeout" "p" true [] []) ∧
    lookupAL ("RETRY_" ++ ErrorRecovery.runFname)
        (ErrorRecovery.retry_failed_action ErrorRecovery.runFname "T2"
          ErrorRecovery.runSt1).2.needsAction
      = some (ErrorRecovery.retriedCopy
          (ErrorRecovery.ItemText.mk "facebook_post" "T1" 0 3 "queued"
            "desc" "timeout" "p" true [] []) "T2") :=
  ⟨by decide,
   (C4_residency_amended "facebook_post" "desc" "p" "timeout"
      ErrorRecovery.runFname "T2" "r" ErrorRecovery.runSt1
      (ErrorRecovery.ItemText.mk "facebook_post" "T1" 0 3 "queued"
        "desc" "timeout" "p" true [] [])
      (by decide) (by decide)).2.2.2⟩

/-- foldlPreserve carries an invariant through a left fold. -/
theorem foldlPreserve {σ α : Type} (f : σ → α → σ) (P : σ → Prop)
    (hstep : ∀ s a, P s → P (f s a)) :
    ∀ (l : List α) (s : σ), P s → P (l.foldl f s) := by
  intro l
  induction l with
  | nil => exact fun s hs => hs
  | cons a t ih => exact fun s hs => ih (f s a) (hstep s a hs)

namespace FacebookWatcher

/-- dedupInv is the comment-loop invariant: the watched id stays in the
seen-set and no emitted comment item carries it. -/
def dedupInv (i : String) (acc : List FBItem × FBState) : Prop :=
  i ∈ acc.2.seen_comment_ids ∧
  ∀ it ∈ acc.1, it.isComment = true → FBItem.ident it ≠ i

/-- mentionInv is the tagged-loop invariant for mention ids. -/
def mentionInv (i : String) (acc : List FBItem × FBState) : Prop :=
  i ∈ acc.2.seen_mention_ids ∧
  ∀ it ∈ acc.1, it.isComment = false → FBItem.ident it ≠ i

theorem graphFetch_state {β : Type} (r : Except String (List β))
    (st : FBState) :
    (graphFetch r st).2.seen_comment_ids = st.seen_comment_ids ∧
    (graphFetch r st).2.seen_mention_ids = st.seen_mention_ids ∧
    (graphFetch r st).2.log = st.log := by
  cases r <;> simp [graphFetch]

theorem commentStep_inv (i : String) (post : FBPost)
    (acc : List FBItem × FBState) (c : FBComment)
    (h : dedupInv i acc) : dedupInv i (commentStep post acc c) := by
  by_cases hc : c.id ∈ acc.2.seen_comment_ids
  · simpa [commentStep, hc] using h
  · refine ⟨?_, ?_⟩
    · simp only [commentStep, if_neg hc]
      exact List.mem_append_left _ h.1
    · simp only [commentStep, if_neg hc]
      intro it hit hcm
      rcases List.mem_append.mp hit with hin | hnew
      · exact h.2 it hin hcm
      · have heq : it = FBItem.comment c.id post.id post.message c.message
            c.from_name c.from_id c.created_time := by simpa using hnew
        subst heq
        simp only [FBItem.ident]
        intro hcon
        exact hc (hcon ▸ h.1)

theorem postStep_inv (i : String) (env : FBEnv)
    (acc : List FBItem × FBState) (post : FBPost)
    (h : dedupInv i acc) : dedupInv i (postStep env acc post) := by
  have hbase : dedupInv i (acc.1, (graphFetch (env.comments post.id) acc.2).2) := by
    refine ⟨?_, h.2⟩
    rw [(graphFetch_state (env.comments post.id) acc.2).1]
    exact h.1
  exact foldlPreserve (commentStep post) (dedupInv i)
    (fun s a hs => commentStep_inv i post s a hs)
    (graphFetch (env.comments post.id) acc.2).1 _ hbase

theorem check_comments_inv (env : FBEnv) (st : FBState) (i : String)
    (hi : i ∈ st.seen_comment_ids) :
    dedupInv i (check_comments env st) := by
  have hbase : dedupInv i (([] : List FBItem), (graphFetch env.posts st).2) := by
    refine ⟨?_, by simp⟩
    rw [(graphFetch_state env.posts st).1]
    exact hi
  exact foldlPreserve (postStep env) (dedupInv i)
    (fun s a hs => postStep_inv i env s a hs)
    (graphFetch env.posts st).1 _ hbase

theorem commentStep_shape (post : FBPost) (acc : List FBItem × FBState)
    (c : FBComment)
    (h : ∀ it ∈ acc.1, it.isComment = true) :
    ∀ it ∈ (commentStep post acc c).1, it.isComment = true := by
  by_cases hc : c.id ∈ acc.2.seen_comment_ids
  · simpa [commentStep, hc] using h
  · simp only [commentStep, if_neg hc]
    intro it hit
    rcases List.mem_append.mp hit with hin | hnew
    · exact h it hin
    · have heq : it = FBItem.comment c.id post.id post.message c.message
          c.from_name c.from_id c.created_time := by simpa using hnew
      subst heq
      rfl

theorem check_comments_shape (env : FBEnv) (st : FBState) :
    ∀ it ∈ (check_comments env st).1, it.isComment = true := by
  have h := foldlPreserve (postStep env)
    (fun acc => ∀ it ∈ acc.1, it.isComment = true)
    (fun s a hs => by
      exact foldlPreserve (commentStep a)
        (fun acc => ∀ it ∈ acc.1, it.isComment = true)
        (fun s₁ c hs₁ => commentStep_shape a s₁ c hs₁)
        (graphFetch (env.comments a.id) s.2).1 (s.1, _) hs)
    (graphFetch env.posts st).1 (([] : List FBItem), (graphFetch env.posts st).2)
    (by simp)
  exact h

theorem commentStep_mentions (post : FBPost) (acc : List FBItem × FBState)
    (c : FBComment) :
    (commentStep post acc c).2.seen_mention_ids
      = acc.2.seen_mention_ids := by
  by_cases hc : c.id ∈ acc.2.seen_comment_ids <;> simp [commentStep, hc]

theorem check_comments_mentions (env : FBEnv) (st : FBState) :
    (check_comments env st).2.seen_mention_ids = st.seen_mention_ids := by
  have h := foldlPreserve (postStep env)
    (fun acc => acc.2.seen_mention_ids = st.seen_mention_ids)
    (fun s a hs => by
      have hb : ((s.1, (graphFetch (env.comments a.id) s.2).2) :
          List FBItem × FBState).2.seen_mention_ids
          = st.seen_mention_ids := by
        rw [(graphFetch_state (env.comments a.id) s.2).2.1]
        exact hs
      exact foldlPreserve (commentStep a)
        (fun acc => acc.2.seen_mention_ids = st.seen_mention_ids)
        (fun s₁ c hs₁ => by
          show (commentStep a s₁ c).2.seen_mention_ids = st.seen_mention_ids
          rw [commentStep_mentions]
          exact hs₁)
        (graphFetch (env.comments a.id) s.2).1 (s.1, _) hb)
    (graphFetch env.posts st).1 (([] : List FBItem), (graphFetch env.posts st).2)
    (by
      show (graphFetch env.posts st).2.seen_mention_ids = st.seen_mention_ids
      exact (graphFetch_state env.posts st).2.1)
  exact h

theorem mentionStep_inv (i : String) (acc : List FBItem × FBState)
    (m : FBMention) (h : mentionInv i acc) :
    mentionInv i (mentionStep acc m) := by
  by_cases hm : m.id ∈ acc.2.seen_mention_ids
  · simpa [mentionStep, hm] using h
  · refine ⟨?_, ?_⟩
    · simp only [mentionStep, if_neg hm]
      exact List.mem_append_left _ h.1
    · simp only [mentionStep, if_neg hm]
      intro it hit hcm
      rcases List.mem_append.mp hit with hin | hnew
      · exact h.2 it hin hcm
      · have heq : it = FBItem.mention m.id m.message m.from_name
            m.created_time m.permalink_url := by simpa using hnew
        subst heq
        simp only [FBItem.ident]
        intro hcon
        exact hm (hcon ▸ h.1)

theorem check_mentions_inv (env : FBEnv) (st : FBState) (i : String)
    (hi : i ∈ st.seen_mention_ids) :
    mentionInv i (check_mentions env st) := by
  have hbase : mentionInv i (([] : List FBItem), (graphFetch env.tagged st).2) := by
    refine ⟨?_, by simp⟩
    rw [(graphFetch_state env.tagged st).2.1]
    exact hi
  exact foldlPreserve mentionStep (mentionInv i)
    (fun s a hs => mentionStep_inv i s a hs)
    (graphFetch env.tagged st).1 _ hbase

theorem mentionStep_shape (acc : List FBItem × FBState) (m : FBMention)
    (h : ∀ it ∈ acc.1, it.isComment = false) :
    ∀ it ∈ (mentionStep acc m).1, it.isComment = false := by
  by_cases hm : m.id ∈ acc.2.seen_mention_ids
  · simpa [mentionStep, hm] using h
  · simp only [mentionStep, if_neg hm]
    intro it hit
    rcases List.mem_append.mp hit with hin | hnew
    · exact h it hin
    · have heq : it = FBItem.mention m.id m.message m.from_name
          m.created_time m.permalink_url := by simpa using hnew
      subst heq
      rfl

theorem check_mentions_shape (env : FBEnv) (st : FBState) :
    ∀ it ∈ (check_mentions env st).1, it.isComment = false := by
  exact foldlPreserve mentionStep
    (fun acc => ∀ it ∈ acc.1, it.isComment = false)
    (fun s a hs => mentionStep_shape s a hs)
    (graphFetch env.tagged st).1
    (([] : List FBItem), (graphFetch env.tagged st).2) (by simp)

end FacebookWatcher

namespace OdooWatcher

theorem rpcFetch_state {β : Type} (a : Except String Nat)
    (r : Except String (List β)) (st : OdooWState) :
    (rpcFetch a r st).2.seen_invoice_ids = st.seen_invoice_ids ∧
    (rpcFetch a r st).2.last_payment_check = st.last_payment_check ∧
    (rpcFetch a r st).2.log = st.log := by
  cases a with
  | error e => simp [rpcFetch, warn]
  | ok uid => cases r <;> simp [rpcFetch, warn]

theorem check_overdue_form (env : OdooWEnv) (st : OdooWState) :
    check_overdue_invoices env st
      = (((rpcFetch env.auth env.overdue st).1.filter
            (fun inv => inv.id ∉
              (rpcFetch env.auth env.overdue st).2.seen_invoice_ids)).map
          OdooItem.overdue,
         { (rpcFetch env.auth env.overdue st).2 with
           seen_invoice_ids :=
             (rpcFetch env.auth env.overdue st).2.seen_invoice_ids
               ++ (rpcFetch env.auth env.overdue st).1.map
                    (fun inv => inv.id) }) := rfl

theorem overdue_not_seen (env : OdooWEnv) (st : OdooWState) :
    ∀ it ∈ (check_overdue_invoices env st).1, ∀ inv,
      it = OdooItem.overdue inv → inv.id ∉ st.seen_invoice_ids := by
  intro it hit inv heq
  rw [check_overdue_form] at hit
  rcases List.mem_map.mp hit with ⟨inv₁, hmem, hmap⟩
  have h₁ : inv₁ = inv := by
    rw [heq] at hmap
    injection hmap
  subst h₁
  have hfil := List.of_mem_filter hmem
  rw [(rpcFetch_state env.auth env.overdue st).1] at hfil
  simpa using hfil

theorem payments_shape (env : OdooWEnv) (today : String) (st : OdooWState) :
    ∀ it ∈ (check_new_payments env today st).1, ∀ inv,
      it ≠ OdooItem.overdue inv := by
  unfold check_new_payments
  by_cases hl : st.last_payment_check = today
  · simp [hl]
  · simp only [if_neg hl]
    intro it hit inv
    rcases List.mem_map.mp hit with ⟨p, _, hmap⟩
    rw [← hmap]
    simp

theorem balance_shape (env : OdooWEnv) (st : OdooWState) :
    ∀ it ∈ (check_balance_alert env st).1, ∀ inv,
      it ≠ OdooItem.overdue inv := by
  unfold check_balance_alert
  cases ha : env.auth with
  | error e => simp
  | ok uid =>
      cases hc : env.cashBalances with
      | error e =>
          intro it hit inv
          repeat split at hit
          all_goals try simp at hit
          all_goals try split_ifs at hit
          all_goals simp_all
      | ok l =>
          intro it hit inv
          repeat split at hit
          all_goals try simp at hit
          all_goals try split_ifs at hit
          all_goals simp_all

theorem overdue_count (env : OdooWEnv) (st : OdooWState) (uid : Nat)
    (invs : List Invoice) (ha : env.auth = Except.ok uid)
    (ho : env.overdue = Except.ok invs) :
    (check_overdue_invoices env st).1.length
      + (invs.filter (fun inv => inv.id ∈ st.seen_invoice_ids)).length
      = invs.length := by
  have hr : rpcFetch env.auth env.overdue st = (invs, st) := by
    simp [rpcFetch, ha, ho]
  rw [check_overdue_form, hr]
  simp only [List.length_map]
  have hsplit := List.length_eq_length_filter_add (l := invs)
    (fun inv => decide (inv.id ∈ st.seen_invoice_ids))
  have hg : (fun inv : Invoice =>
        decide (inv.id ∉ st.seen_invoice_ids))
      = (fun inv : Invoice => ! decide (inv.id ∈ st.seen_invoice_ids)) := by
    funext inv
    simp [decide_not]
  rw [hg, Nat.add_comm]
  exact hsplit.symm

end OdooWatcher

/-- C7: An external identifier already in the relevant seen-set is never
emitted again by a subsequent check_for_updates, even when the upstream
window still lists it — for Facebook comment ids, Facebook mention ids,
and Odoo overdue-invoice ids — and the overdue check emits exactly the
fetched invoices whose id is not yet seen: the number of emitted
candidates plus the number of fetched rows with an already-seen id equals
the window size. -/
theorem C7_seen_ids_never_reemitted (token ts : String)
    (env : FacebookWatcher.FBEnv) (st : FacebookWatcher.FBState)
    (i : String) (envO : OdooWatcher.OdooWEnv)
    (stO : OdooWatcher.OdooWState) (today tsO : String) (j uid : Nat)
    (invs : List OdooWatcher.Invoice) :
    (i ∈ st.seen_comment_ids →
      ∀ it ∈ (FacebookWatcher.check_for_updates token env ts st).1,
        it.isComment = true → FacebookWatcher.FBItem.ident it ≠ i) ∧
    (i ∈ st.seen_mention_ids →
      ∀ it ∈ (FacebookWatcher.check_for_updates token env ts st).1,
        it.isComment = false → FacebookWatcher.FBItem.ident it ≠ i) ∧
    (j ∈ stO.seen_invoice_ids →
      ∀ it ∈ (OdooWatcher.check_for_updates envO today tsO stO).1,
        ∀ inv, it = OdooWatcher.OdooItem.overdue inv → inv.id ≠ j) ∧
    (envO.auth = Except.ok uid → envO.overdue = Except.ok invs →
      (OdooWatcher.check_overdue_invoices envO stO).1.length
        + (invs.filter (fun inv => inv.id ∈ stO.seen_invoice_ids)).length
        = invs.length) := by
  have hformO : (OdooWatcher.check_for_updates envO today tsO stO).1
      = (OdooWatcher.check_overdue_invoices envO stO).1
        ++ ((OdooWatcher.check_new_payments envO today
              (OdooWatcher.check_overdue_invoices envO stO).2).1
        ++ (OdooWatcher.check_balance_alert envO
              (OdooWatcher.check_new_payments envO today
                (OdooWatcher.check_overdue_invoices envO stO).2).2).1) := by
    simp [OdooWatcher.check_for_updates]
  refine ⟨?_, ?_, ?_, ?_⟩
  · intro hi it hit hcm
    by_cases htok : token = ""
    · simp [FacebookWatcher.check_for_updates, htok] at hit
    · have hform : (FacebookWatcher.check_for_updates token env ts st).1
          = (FacebookWatcher.check_comments env st).1
            ++ (FacebookWatcher.check_mentions env
                (FacebookWatcher.check_comments env st).2).1 := by
        simp [FacebookWatcher.check_for_updates, htok]
      rw [hform] at hit
      rcases List.mem_append.mp hit with hc | hm
      · exact (FacebookWatcher.check_comments_inv env st i hi).2 it hc hcm
      · have hsh := FacebookWatcher.check_mentions_shape env
          (FacebookWatcher.check_comments env st).2 it hm
        rw [hcm] at hsh
        exact absurd hsh (by simp)
  · intro hi it hit hcm
    by_cases htok : token = ""
    · simp [FacebookWatcher.check_for_updates, htok] at hit
    · have hform : (FacebookWatcher.check_for_updates token env ts st).1
          = (FacebookWatcher.check_comments env st).1
            ++ (FacebookWatcher.check_mentions env
                (FacebookWatcher.check_comments env st).2).1 := by
        simp [FacebookWatcher.check_for_updates, htok]
      rw [hform] at hit
      rcases List.mem_append.mp hit with hc | hm
      · have hsh := FacebookWatcher.check_comments_shape env st it hc
        rw [hcm] at hsh
        exact absurd hsh (by simp)
      · have hi₁ : i ∈ (FacebookWatcher.check_comments env st).2.seen_mention_ids := by
          rw [FacebookWatcher.check_comments_mentions]
          exact hi
        exact (FacebookWatcher.check_mentions_inv env
          (FacebookWatcher.check_comments env st).2 i hi₁).2 it hm hcm
  · intro hj it hit inv heq
    rw [hformO] at hit
    rcases List.mem_append.mp hit with hx | hyz
    · have hns := OdooWatcher.overdue_not_seen envO stO it hx inv heq
      intro hid
      exact hns (hid ▸ hj)
    · rcases List.mem_append.mp hyz with hy | hz
      · exact absurd heq (OdooWatcher.payments_shape envO today _ it hy inv)
      · exact absurd heq (OdooWatcher.balance_shape envO _ it hz inv)
  · intro ha ho
    exact OdooWatcher.overdue_count envO stO uid invs ha ho

namespace OdooWatcher

/-- invW is a concrete overdue-invoice row for the Scenario C instance. -/
def invW (n : Nat) : Invoice :=
  { id := n, name := "INV", partner := "Acme", amount_total := 10,
    invoice_date_due := "2025-01-01", move_type := "out_invoice" }

/-- invsW is a ten-row overdue window whose ids are 41 through 50. -/
def invsW : List Invoice :=
  [invW 41, invW 42, invW 43, invW 44, invW 45,
   invW 46, invW 47, invW 48, invW 49, invW 50]

/-- envW is a healthy backend returning the ten-row window and enough
cash to stay above the alert threshold. -/
def envW : OdooWEnv :=
  { auth := Except.ok 1, overdue := Except.ok invsW,
    payments := Except.ok [], cashBalances := Except.ok [2000] }

/-- stW is a watcher state whose seen-set already contains invoice id 42. -/
def stW : OdooWState :=
  { seen_invoice_ids := [42], last_payment_check := "D", log := [],
    warnings := [] }

end OdooWatcher

/-- C7 witness: Scenario C — the upstream window holds ten invoices, one
of which (id 42) is already seen; the theorem instance shows no overdue
candidate for id 42 is emitted and the counting identity holds, and
evaluation confirms exactly nine candidates are emitted. -/
theorem C7_seen_ids_never_reemitted_witness :
    (42 ∈ OdooWatcher.stW.seen_invoice_ids) ∧
    (∀ it ∈ (OdooWatcher.check_for_updates OdooWatcher.envW "D0" "T"
        OdooWatcher.stW).1,
      ∀ inv, it = OdooWatcher.OdooItem.overdue inv → inv.id ≠ 42) ∧
    ((OdooWatcher.check_overdue_invoices OdooWatcher.envW
        OdooWatcher.stW).1.length
      + ((OdooWatcher.invsW.filter
          (fun inv => inv.id ∈ OdooWatcher.stW.seen_invoice_ids)).length)
      = OdooWatcher.invsW.length) ∧
    (OdooWatcher.check_overdue_invoices OdooWatcher.envW
        OdooWatcher.stW).1.length = 9 :=
  ⟨by decide,
   (C7_seen_ids_never_reemitted "tk" "T"
      { posts := Except.ok [], comments := fun _ => Except.ok [],
        tagged := Except.ok [] }
      { seen_comment_ids := [], seen_mention_ids := [], log := [],
        warnings := [] }
      "42" OdooWatcher.envW OdooWatcher.stW "D0" "T" 42 1
      OdooWatcher.invsW).2.2.1 (by decide),
   (C7_seen_ids_never_reemitted "tk" "T"
      { posts := Except.ok [], comments := fun _ => Except.ok [],
        tagged := Except.ok [] }
      { seen_comment_ids := [], seen_mention_ids := [], log := [],
        warnings := [] }
      "42" OdooWatcher.envW OdooWatcher.stW "D0" "T" 42 1
      OdooWatcher.invsW).2.2.2 rfl rfl,
   by decide⟩

namespace OdooWatcher

/-- envBal is a backend where authentication succeeds but the cash-balance
query raises; all other windows are healthy and empty. -/
def envBal : OdooWEnv :=
  { auth := Except.ok 1, overdue := Except.ok [],
    payments := Except.ok [], cashBalances := Except.error "timeout" }

/-- stBal is a fresh watcher state whose payments cursor is already at
today, isolating the balance check. -/
def stBal : OdooWState :=
  { seen_invoice_ids := [], last_payment_check := "D", log := [],
    warnings := [] }

end OdooWatcher

/-- C8 counterexample: with authentication succeeding and the cash-balance
query failing, the tick logs the warning but yields a fabricated
low-balance alert — a nonempty result that is neither the empty sequence
nor an item gathered before the failure. -/
theorem C8_spurious_alert_counterexample :
    (OdooWatcher.check_for_updates OdooWatcher.envBal "D" "T"
        OdooWatcher.stBal).1
      = [OdooWatcher.OdooItem.lowBalance 0
          OdooWatcher.LOW_BALANCE_THRESHOLD] ∧
    (OdooWatcher.check_for_updates OdooWatcher.envBal "D" "T"
        OdooWatcher.stBal).2.warnings
      = ["Odoo RPC failed: timeout"] := by
  decide

/-- C8 amended: check_for_updates absorbs upstream failures instead of
propagating them — a Facebook tick whose posts and tagged requests both
fail yields the empty sequence with both seen-sets unchanged (as does a
missing token), and an Odoo tick whose authentication fails yields the
empty sequence with the seen-set unchanged; but when Odoo authentication
succeeds and only the cash-balance query fails, the failure is read as a
zero balance and the tick yields a spurious low-balance alert item. -/
theorem C8_check_for_updates_absorbs_failures (token ts e₁ e₂ : String)
    (env : FacebookWatcher.FBEnv) (st : FacebookWatcher.FBState)
    (envO : OdooWatcher.OdooWEnv) (stO : OdooWatcher.OdooWState)
    (today tsO eA eC : String) (uid : Nat)
    (hp : env.posts = Except.error e₁)
    (ht : env.tagged = Except.error e₂) :
    ((FacebookWatcher.check_for_updates token env ts st).1 = [] ∧
     (FacebookWatcher.check_for_updates token env ts st).2.seen_comment_ids
        = st.seen_comment_ids ∧
     (FacebookWatcher.check_for_updates token env ts st).2.seen_mention_ids
        = st.seen_mention_ids) ∧
    (envO.auth = Except.error eA →
      (OdooWatcher.check_for_updates envO today tsO stO).1 = [] ∧
      (OdooWatcher.check_for_updates envO today tsO stO).2.seen_invoice_ids
        = stO.seen_invoice_ids) ∧
    (envO.auth = Except.ok uid → envO.cashBalances = Except.error eC →
      OdooWatcher.OdooItem.lowBalance 0 OdooWatcher.LOW_BALANCE_THRESHOLD
        ∈ (OdooWatcher.check_for_updates envO today tsO stO).1) := by
  have h01 : (0 : ℚ) < OdooWatcher.LOW_BALANCE_THRESHOLD := by
    norm_num [OdooWatcher.LOW_BALANCE_THRESHOLD]
  refine ⟨?_, ?_, ?_⟩
  · by_cases htok : token = "" <;>
      simp [FacebookWatcher.check_for_updates, FacebookWatcher.check_comments,
        FacebookWatcher.check_mentions, FacebookWatcher.graphFetch,
        FacebookWatcher.log_action, hp, ht, htok]
  · intro hA
    constructor <;>
      (by_cases hl : stO.last_payment_check = today <;>
        simp [OdooWatcher.check_for_updates,
          OdooWatcher.check_overdue_invoices, OdooWatcher.check_new_payments,
          OdooWatcher.check_balance_alert, OdooWatcher.rpcFetch,
          OdooWatcher.warn, OdooWatcher.log_action, hA, hl])
  · intro hU hC
    have hz : (OdooWatcher.check_balance_alert envO
        (OdooWatcher.check_new_payments envO today
          (OdooWatcher.check_overdue_invoices envO stO).2).2).1
        = [OdooWatcher.OdooItem.lowBalance 0
            OdooWatcher.LOW_BALANCE_THRESHOLD] := by
      simp [OdooWatcher.check_balance_alert, hU, hC, OdooWatcher.warn, h01]
    have hform : (OdooWatcher.check_for_updates envO today tsO stO).1
        = (OdooWatcher.check_overdue_invoices envO stO).1
          ++ ((OdooWatcher.check_new_payments envO today
                (OdooWatcher.check_overdue_invoices envO stO).2).1
          ++ (OdooWatcher.check_balance_alert envO
                (OdooWatcher.check_new_payments envO today
                  (OdooWatcher.check_overdue_invoices envO stO).2).2).1) := by
      simp [OdooWatcher.check_for_updates]
    rw [hform, hz]
    exact List.mem_append_right _ (List.mem_append_right _ (by simp))

/-- C8 amended witness: the amended theorem applied at a fully failing
Facebook environment and an Odoo environment with failing authentication,
plus the spurious-alert branch at the concrete cash-failure environment. -/
theorem C8_check_for_updates_absorbs_failures_witness :
    ((FacebookWatcher.check_for_updates "tk"
        { posts := Except.error "down", comments := fun _ => Except.error "down",
          tagged := Except.error "down" } "T"
        { seen_comment_ids := ["9"], seen_mention_ids := [], log := [],
          warnings := [] }).1 = [] ∧
     (FacebookWatcher.check_for_updates "tk"
        { posts := Except.error "down", comments := fun _ => Except.error "down",
          tagged := Except.error "down" } "T"
        { seen_comment_ids := ["9"], seen_mention_ids := [], log := [],
          warnings := [] }).2.seen_comment_ids = ["9"] ∧
     (FacebookWatcher.check_for_updates "tk"
        { posts := Except.error "down", comments := fun _ => Except.error "down",
          tagged := Except.error "down" } "T"
        { seen_comment_ids := ["9"], seen_mention_ids := [], log := [],
          warnings := [] }).2.seen_mention_ids = []) ∧
    OdooWatcher.OdooItem.lowBalance 0 OdooWatcher.LOW_BALANCE_THRESHOLD
      ∈ (OdooWatcher.check_for_updates OdooWatcher.envBal "D" "T"
          OdooWatcher.stBal).1 :=
  ⟨(C8_check_for_updates_absorbs_failures "tk" "T" "down" "down"
      { posts := Except.error "down", comments := fun _ => Except.error "down",
        tagged := Except.error "down" }
      { seen_comment_ids := ["9"], seen_mention_ids := [], log := [],
        warnings := [] }
      OdooWatcher.envBal OdooWatcher.stBal "D" "T" "x" "timeout" 1
      rfl rfl).1,
   (C8_check_for_updates_absorbs_failures "tk" "T" "down" "down"
      { posts := Except.error "down", comments := fun _ => Except.error "down",
        tagged := Except.error "down" }
      { seen_comment_ids := ["9"], seen_mention_ids := [], log := [],
        warnings := [] }
      OdooWatcher.envBal OdooWatcher.stBal "D" "T" "x" "timeout" 1
      rfl rfl).2.2 rfl rfl⟩

/-- C9: Every modelled mutating operation appends to the per-day audit
log and never rewrites it: the new log is always the old log followed by
the emitted entries, which number exactly one whenever the operation
found its target and acted (the only zero-entry paths are the NotFound
rejections, which mutate nothing) — so the prior log contents are always
an initial segment of the log afterwards. -/
theorem C9_audit_log_append_only (a d p oe f reason ts : String)
    (st : ErrorRecovery.ErrState) (env : OdooApi.OdooEnv) (iid : Nat)
    (amt : ℚ) (memo ts₂ : String) (stO : OdooApi.OdooState)
    (msg lnk txt rep ts₃ ts₄ : String) (stS stT : SocialApi.SocialState) :
    (∃ e, (ErrorRecovery.queue_for_retry a d p oe ts st).2.log
        = st.log ++ [e]) ∧
    (∃ e, (ErrorRecovery.list_error_queue ts st).2.log = st.log ++ [e]) ∧
    (∃ es, (ErrorRecovery.retry_failed_action f ts st).2.log
        = st.log ++ es ∧ es.length ≤ 1 ∧
      ((lookupAL f st.errorQueue).isSome = true → es.length = 1)) ∧
    (∃ es, (ErrorRecovery.mark_unrecoverable f reason ts st).2.log
        = st.log ++ es ∧ es.length ≤ 1 ∧
      ((lookupAL f st.errorQueue).isSome = true → es.length = 1)) ∧
    (∃ e, (OdooApi.record_payment env iid amt memo ts₂ stO).2.log
        = stO.log ++ [e]) ∧
    (∃ e, (SocialApi.post_to_page msg lnk ts₃ stS).2.log
        = stS.log ++ [e]) ∧
    (∃ e, (SocialApi.post_tweet txt rep ts₄ stT).2.log
        = stT.log ++ [e]) := by
  refine ⟨⟨_, rfl⟩, ⟨_, rfl⟩, ?_, ?_, ?_, ⟨_, rfl⟩, ⟨_, rfl⟩⟩
  · cases hl : lookupAL f st.errorQueue with
    | none =>
        rw [ErrorRecovery.retry_notfound f ts st hl]
        exact ⟨[], by simp, by simp, by simp [hl]⟩
    | some t =>
        by_cases hge : ErrorRecovery.MAX_RETRIES ≤ t.retry_count
        · rw [ErrorRecovery.retry_delegates f ts st t hl hge,
            ErrorRecovery.mark_step f "Max retries (3) exceeded" ts st t hl]
          exact ⟨_, rfl, by simp, fun _ => rfl⟩
        · rw [ErrorRecovery.retry_step f ts st t hl (lt_of_not_ge hge)]
          exact ⟨_, rfl, by simp, fun _ => rfl⟩
  · cases hl : lookupAL f st.errorQueue with
    | none =>
        rw [ErrorRecovery.mark_notfound f reason ts st hl]
        exact ⟨[], by simp, by simp, by simp [hl]⟩
    | some t =>
        rw [ErrorRecovery.mark_step f reason ts st t hl]
        exact ⟨_, rfl, by simp, fun _ => rfl⟩
  · by_cases ha : OdooApi.HITL_THRESHOLD < amt
    · unfold OdooApi.record_payment
      rw [if_pos ha]
      exact ⟨_, rfl⟩
    · unfold OdooApi.record_payment
      rw [if_neg ha]
      cases henv : env { model := "account.move", method := "read" } with
      | error e => exact ⟨_, rfl⟩
      | ok nm =>
          cases henv₂ : env
              { model := "account.move",
                method := "action_register_payment" } with
          | error e => exact ⟨_, rfl⟩
          | ok v => exact ⟨_, rfl⟩

/-- C9 witness: the append-only theorem applied at a state holding one
queued item, with the found-target hypothesis discharged there to show
the retry call appends exactly one entry. -/
theorem C9_audit_log_append_only_witness :
    (lookupAL "ERROR_X.md"
      (ErrorRecovery.ErrState.mk
        [("ERROR_X.md", ErrorRecovery.sampleItem 0 "queued")] [] [] []).errorQueue).isSome
      = true ∧
    (∃ es, (ErrorRecovery.retry_failed_action "ERROR_X.md" "T1"
        (ErrorRecovery.ErrState.mk
          [("ERROR_X.md", ErrorRecovery.sampleItem 0 "queued")] [] [] [])).2.log
        = [] ++ es ∧ es.length ≤ 1 ∧
      ((lookupAL "ERROR_X.md"
        (ErrorRecovery.ErrState.mk
          [("ERROR_X.md", ErrorRecovery.sampleItem 0 "queued")] [] [] []).errorQueue).isSome
        = true → es.length = 1)) ∧
    (∃ e, (SocialApi.post_to_page "m" "" "T3"
        (SocialApi.SocialState.mk [] [] [])).2.log = [] ++ [e]) :=
  ⟨by decide,
   (C9_audit_log_append_only "fb" "d" "p" "err" "ERROR_X.md" "r" "T1"
      (ErrorRecovery.ErrState.mk
        [("ERROR_X.md", ErrorRecovery.sampleItem 0 "queued")] [] [] [])
      (fun _ => Except.ok "INV") 1 5 "m" "T2"
      (OdooApi.OdooState.mk [] [] []) "m" "" "t" "" "T3" "T4"
      (SocialApi.SocialState.mk [] [] [])
      (SocialApi.SocialState.mk [] [] [])).2.2.1,
   (C9_audit_log_append_only "fb" "d" "p" "err" "ERROR_X.md" "r" "T1"
      (ErrorRecovery.ErrState.mk
        [("ERROR_X.md", ErrorRecovery.sampleItem 0 "queued")] [] [] [])
      (fun _ => Except.ok "INV") 1 5 "m" "T2"
      (OdooApi.OdooState.mk [] [] []) "m" "" "t" "" "T3" "T4"
      (SocialApi.SocialState.mk [] [] [])
      (SocialApi.SocialState.mk [] [] [])).2.2.2.2.2.1⟩
